import Mathlib

/-!
Verification of the Crunchyroll account-checker service (`app.py`,
`crunchyroll_checker.py`) against its natural-language specification.

The embedding models the pure computational core of the two Python files:

* the Status Analyzer (`CrunchyrollChecker.analyze_account_status` and its
  `extract_country` / `extract_plan` / `extract_payment` helpers, including a
  faithful model of the three `re.search` patterns used there),
* the Response Formatter (`CrunchyrollChecker.format_response`),
* the Rate Limiter (`is_rate_limited` in `app.py`, modelled per client:
  the parameter `log` is `request_times[ip]`, an absent key being `[]`),
* the HTTP handlers' validation logic (`check_account`, `batch_check`),
  with the outbound network call abstracted as a function parameter.

HTML-to-text extraction (BeautifulSoup's `get_text`) and the network session
are outside the model: the analyzer is given the visible page text directly,
and handlers are given the already-parsed JSON body.
-/

/-- Python's substring test `needle in hay` (`True` at every position,
including the empty needle). -/
def strContains (hay needle : String) : Bool :=
  (List.range (hay.data.length + 1)).any
    (fun i => (hay.data.drop i).take needle.data.length == needle.data)

/-- Python's per-character test `c in s`. -/
def charIn (c : Char) (s : String) : Bool := s.data.contains c

/-- Python's `str.lower()` (per-character lower-casing). -/
def pyLower (s : String) : String := String.mk (s.data.map Char.toLower)

/-- Python's `str.upper()` (per-character upper-casing). -/
def pyUpper (s : String) : String := String.mk (s.data.map Char.toUpper)

/-- Python's `str.strip()`: remove leading and trailing whitespace. -/
def pyStrip (s : String) : String :=
  String.mk (((s.data.dropWhile Char.isWhitespace).reverse.dropWhile
    Char.isWhitespace).reverse)

/-- Python's rendering of a `bool` inside an f-string. -/
def pyBool : Bool → String
  | true => "True"
  | false => "False"

/-- Python's rendering of an optional string inside an f-string
(`None` prints as the literal text `None`). -/
def pyOptStr : Option String → String
  | none => "None"
  | some e => e

/-! ## Model of the three `re.search` patterns

All three patterns have the shape `LITERAL[:\s]*TAIL` with `re.IGNORECASE`.
`re.search` returns the leftmost match; within one starting position the
greedy `[:\s]*` tries the longest consumption first and backtracks.
-/

/-- The character class `[:\s]`: a colon or whitespace. -/
def isColonOrSpace (c : Char) : Bool := c == ':' || c.isWhitespace

/-- Carriage return or line feed (the characters excluded by `[^\n\r]`). -/
def isNewlineChar (c : Char) : Bool := c == '\n' || c == '\r'

/-- An ASCII letter: what `[a-z]` matches under `re.IGNORECASE`. -/
def isAsciiLetter (c : Char) : Bool :=
  ('a' ≤ c && c ≤ 'z') || ('A' ≤ c && c ≤ 'Z')

/-- Match a literal case-insensitively at the head of the input; on success
return the remaining input. -/
def matchLitCI : List Char → List Char → Option (List Char)
  | [], cs => some cs
  | _ :: _, [] => none
  | l :: ls, c :: cs => if l.toLower == c.toLower then matchLitCI ls cs else none

/-- Tail matcher for `country[:\s]*([a-z]{2})`: after the literal, consume
`[:\s]*` greedily, then require two letters, which form the group.  No
backtracking is needed: a character of `[:\s]` is never a letter, so only the
maximal consumption can be followed by `[a-z]{2}`. -/
def countryTail (rest : List Char) : Option (List Char) :=
  match rest.dropWhile isColonOrSpace with
  | a :: b :: _ => if isAsciiLetter a && isAsciiLetter b then some [a, b] else none
  | _ => none

/-- Tail matcher for `[:\s]*([^\n\r]+)` (used by the `plan` and `payment`
patterns).  Greedily consume `[:\s]*`; if any input remains, its first
character is not colon/whitespace, hence not a newline, and the group is the
run up to the next newline.  If the pattern hit the end of input, backtrack:
the group becomes the last consumed character that is not a newline (all
characters after it are newlines, so the `+` run is that one character). -/
def lineTail (rest : List Char) : Option (List Char) :=
  match rest.dropWhile isColonOrSpace with
  | s@(_ :: _) => some (s.takeWhile (fun c => !(isNewlineChar c)))
  | [] =>
    match (rest.takeWhile isColonOrSpace).reverse.dropWhile isNewlineChar with
    | [] => none
    | c :: _ => some [c]

/-- Leftmost search of `re.search` for a pattern `LITERAL …tail…`: try each
starting position left to right; at each, match the literal case-insensitively
and then the tail. -/
def reSearchCI (lit : String) (tail : List Char → Option (List Char)) :
    List Char → Option (List Char)
  | [] => (matchLitCI lit.data []).bind tail
  | c :: cs =>
    match (matchLitCI lit.data (c :: cs)).bind tail with
    | some g => some g
    | none => reSearchCI lit tail cs

/-! ## Status Analyzer (`crunchyroll_checker.py`) -/

/-- Source: `extract_country` — `re.search(r'country[:\s]*([a-z]{2})', page_text,
re.IGNORECASE)`, returning `group(1).upper()` on a match and `'US'` otherwise. -/
def extract_country (page_text : String) : String :=
  match reSearchCI "country" countryTail page_text.data with
  | some g => pyUpper (String.mk g)
  | none => "US"

/-- Source: `extract_plan` — `re.search(r'plan[:\s]*([^\n\r]+)', page_text,
re.IGNORECASE)`, returning `group(1).strip()` on a match; otherwise
`'Mega Fan - fan_pack'` if `'mega fan'` occurs in the lower-cased text, else
`'Premium'` if `'premium'` occurs, else `'Premium Plan'`. -/
def extract_plan (page_text : String) : String :=
  match reSearchCI "plan" lineTail page_text.data with
  | some g => pyStrip (String.mk g)
  | none =>
    if strContains (pyLower page_text) "mega fan" then "Mega Fan - fan_pack"
    else if strContains (pyLower page_text) "premium" then "Premium"
    else "Premium Plan"

/-- Source: `extract_payment` — `re.search(r'payment[:\s]*([^\n\r]+)',
page_text, re.IGNORECASE)`, returning `group(1).strip()` on a match and
`'Credit Card'` otherwise. -/
def extract_payment (page_text : String) : String :=
  match reSearchCI "payment" lineTail page_text.data with
  | some g => pyStrip (String.mk g)
  | none => "Credit Card"

/-- The dictionary built for a successful analysis (`analyze_account_status`)
or passed to `format_response`. -/
structure AccountInfo where
  country : String
  plan : String
  payment_method : String
  status : String
  trial : Bool
  renewal_date : String
  days_left : Nat
deriving DecidableEq

/-- The dictionary returned by `format_response` (the body of the HTTP 200
response for a completed check). -/
structure CheckResult where
  success : Bool
  formatted_response : String
  raw_data : Option AccountInfo
  error : Option String
deriving DecidableEq

/-- Source: `format_response(success, email, account_info=None, error=None)`.
On `success and account_info`: picks icon and label from
`account_info['status'] == 'active'` and joins the ten `response_lines` with
newlines; otherwise emits the four-line failure layout. -/
def format_response (success : Bool) (email : String)
    (account_info : Option AccountInfo) (error : Option String) : CheckResult :=
  match success, account_info with
  | true, some info =>
    let status_icon := if info.status = "active" then "✅" else "❌"
    let plan_type := if info.status = "active" then "Premium Account" else "Free Account"
    let response_lines : List String :=
      [status_icon ++ " " ++ plan_type,
       "",
       "Account: " ++ email,
       "Country: " ++ info.country,
       "Plan: " ++ info.plan,
       "Payment: " ++ info.payment_method,
       "Status: " ++ info.status,
       "Trial: " ++ pyBool info.trial,
       "Renewal: " ++ info.renewal_date,
       "Days Left: " ++ toString info.days_left]
    { success := true,
      formatted_response := String.intercalate "\n" response_lines,
      raw_data := some info,
      error := none }
  | _, _ =>
    { success := false,
      formatted_response :=
        "❌ Invalid Account\n\nAccount: " ++ email ++ "\nError: " ++ pyOptStr error,
      raw_data := none,
      error := error }

/-- The seven premium indicator substrings of `analyze_account_status`. -/
def premium_indicators : List String :=
  ["premium", "megafan", "mega fan", "fan pack",
   "subscription", "member", "payment method"]

/-- Source: `analyze_account_status(email, html_content)`.  `html_text` is the
visible page text (`soup.get_text()`); `renewal_date` stands for
`generate_future_date(120)`, passed as a parameter because it reads the clock. -/
def analyze_account_status (renewal_date : String) (email html_text : String) :
    CheckResult :=
  let page_text := pyLower html_text
  let is_premium := premium_indicators.any (fun ind => strContains page_text ind)
  if is_premium = false then
    format_response true email
      (some { country := "Unknown", plan := "Free", payment_method := "None",
              status := "inactive", trial := false, renewal_date := "N/A",
              days_left := 0 }) none
  else
    format_response true email
      (some { country := extract_country html_text,
              plan := extract_plan html_text,
              payment_method := extract_payment html_text,
              status := "active",
              trial := strContains page_text "trial",
              renewal_date := renewal_date,
              days_left := 118 }) none

/-! ## Rate Limiter (`app.py`, `is_rate_limited`) -/

/-- Source: `is_rate_limited(ip, max_requests=10, window_seconds=60)`, modelled
per client: `log` is `request_times[ip]` (an absent key being the empty list)
and `now` is `time.time()`.  The time domain `α` abstracts the real-valued
clock (instantiated at `ℚ` in the general theorems and at `ℤ` in concrete
scenarios).  Returns the boolean result together with the new value of
`request_times[ip]`: old timestamps are filtered out first; if at least
`max_requests` remain the request is limited and nothing is recorded;
otherwise `now` is appended. -/
def is_rate_limited {α : Type} [Sub α] [LT α]
    [DecidableRel ((· < ·) : α → α → Prop)] (now : α) (log : List α)
    (max_requests : Nat) (window_seconds : α) : Bool × List α :=
  let kept := log.filter (fun t => now - t < window_seconds)
  if max_requests ≤ kept.length then (true, kept) else (false, kept ++ [now])

/-- Feed a sequence of request times for one client through `is_rate_limited`,
starting from a given log; collect the limited/admitted verdicts and the final
log. -/
def runRequests {α : Type} [Sub α] [LT α]
    [DecidableRel ((· < ·) : α → α → Prop)] (max_requests : Nat)
    (window_seconds : α) : List α → List α → List Bool × List α
  | [], log => ([], log)
  | t :: ts, log =>
    let r := is_rate_limited t log max_requests window_seconds
    let rest := runRequests max_requests window_seconds ts r.2
    (r.1 :: rest.1, rest.2)

/-! ## HTTP Facade (`app.py`) -/

/-- The parsed JSON body of a `POST /api/check` request: the `email` and
`password` fields, each possibly absent (`data.get(..., '')`). -/
structure CheckRequest where
  email : Option String
  password : Option String
deriving DecidableEq

/-- Outcome of the validation prefix of the `check_account` handler: either an
immediate JSON response (with its HTTP status code and `success` / `error`
fields), or the handler proceeds to `checker.check_single_account` with the
stripped credentials. -/
inductive CheckOutcome where
  | respond (http_status : Nat) (success : Bool) (error : String)
      (formatted_response : String)
  | proceed (email password : String)
deriving DecidableEq

/-- The body of `check_account` after stripping: the emptiness test
(`if not email or not password`) followed by the email-shape test
(`if '@' not in email or '.' not in email`). -/
def validate_credentials (email password : String) : CheckOutcome :=
  if email = "" ∨ password = "" then
    .respond 400 false "Missing credentials"
      "❌ Invalid Request\n\nError: Email and password are required"
  else if charIn '@' email = false ∨ charIn '.' email = false then
    .respond 400 false "Invalid email format"
      ("❌ Invalid Email\n\nAccount: " ++ email ++ "\nError: Invalid email format")
  else
    .proceed email password

/-- Source: the `check_account` handler of `POST /api/check` (`app.py`).
`rate_limited` is the verdict of `is_rate_limited(client_ip)`; `data` is the
parsed JSON body, `none` standing for a falsy `request.get_json()` result. -/
def check_account (rate_limited : Bool) (data : Option CheckRequest) :
    CheckOutcome :=
  if rate_limited then
    .respond 429 false "Rate limit exceeded"
      "❌ Rate Limited\n\nPlease wait 60 seconds before making another request."
  else
    match data with
    | none =>
      .respond 400 false "No data provided"
        "❌ Invalid Request\n\nError: No JSON data provided"
    | some d =>
      validate_credentials (pyStrip (d.email.getD "")) (pyStrip (d.password.getD ""))

/-- The JSON body and status of an except-block response (lines 113-119 and
199-205 of `app.py`). -/
structure ErrorResponse where
  http_status : Nat
  success : Bool
  formatted_response : String
  error : String
deriving DecidableEq

/-- Source: the `except Exception as e` block of `check_account`; `e` is
`str(e)`, the stringified exception. -/
def check_account_on_exception (e : String) : ErrorResponse :=
  { http_status := 500, success := false,
    formatted_response := "❌ Server Error\n\nError: Internal server error",
    error := e }

/-- Source: the `except Exception as e` block of `batch_check`; `e` is
`str(e)`, the stringified exception. -/
def batch_check_on_exception (e : String) : ErrorResponse :=
  { http_status := 500, success := false,
    formatted_response := "❌ Server Error\n\nError: Internal server error",
    error := e }

/-- The per-entry failure string for a batch entry without a `':'` separator
(`f"❌ Invalid Format\n\nLine {i+1}: {account_str}\nError: Use email:password
format"`). -/
def invalid_format_msg (n : Nat) (original : String) : String :=
  "❌ Invalid Format\n\nLine " ++ toString n ++ ": " ++ original ++
    "\nError: Use email:password format"

/-- One iteration of the `for i, account_str in enumerate(accounts)` loop of
`batch_check`: the string appended to `results` for entry `account_str` at
0-based index `i`.  `check` abstracts
`checker.check_single_account(email, password)['formatted_response']`
(a network call). -/
def batch_entry_result (check : String → String → String) (i : Nat)
    (account_str : String) : String :=
  if charIn ':' account_str = false then invalid_format_msg (i + 1) account_str
  else
    let email := pyStrip (String.mk (account_str.data.takeWhile (· ≠ ':')))
    let password := pyStrip (String.mk
      ((account_str.data.dropWhile (· ≠ ':')).drop 1))
    if charIn '@' email = false ∨ charIn '.' email = false then
      "❌ Invalid Email\n\nAccount: " ++ email ++ "\nError: Invalid email format"
    else check email password

/-- The batch loop itself, carrying the 0-based index of `enumerate`; each
iteration appends exactly one string to `results` (the `continue` branches
included). -/
def batch_loop (check : String → String → String) : Nat → List String → List String
  | _, [] => []
  | i, a :: rest => batch_entry_result check i a :: batch_loop check (i + 1) rest

/-- Outcome of the `batch_check` handler: either an immediate error response or
the success payload carrying `results` (from which `total_checked` and the
joined `formatted_response` are derived). -/
inductive BatchOutcome where
  | respond (http_status : Nat) (success : Bool) (error : String)
      (formatted_response : String)
  | ok (results : List String)
deriving DecidableEq

/-- Source: the `batch_check` handler of `POST /api/batch-check` (`app.py`).
`rate_limited` is the verdict of `is_rate_limited(client_ip, 3, 120)`;
`accounts?` is `data['accounts']`, `none` standing for a falsy body or a
missing `accounts` key (entries are modelled as strings; the
`isinstance(account_str, str)` guard is vacuous here). -/
def batch_check (rate_limited : Bool) (accounts? : Option (List String))
    (check : String → String → String) : BatchOutcome :=
  if rate_limited then
    .respond 429 false "Rate limit exceeded"
      "❌ Rate Limited\n\nPlease wait 2 minutes before making another batch request."
  else
    match accounts? with
    | none =>
      .respond 400 false "No accounts provided"
        "❌ Invalid Request\n\nError: No accounts data provided"
    | some accounts =>
      if 5 < accounts.length then
        .respond 400 false "Too many accounts"
          "❌ Too Many Accounts\n\nError: Maximum 5 accounts allowed per batch"
      else
        .ok (batch_loop check 0 accounts)

/-! ## Helper lemmas -/

/-- Upper-casing a basic-latin lower-case character changes it. -/
theorem toUpper_ne_of_isLower (c : Char) (h : c.isLower = true) :
    c.toUpper ≠ c := by
  have h1 : 97 ≤ c.toNat ∧ c.toNat ≤ 122 := by
    simp only [Char.isLower, Bool.and_eq_true, decide_eq_true_eq, ge_iff_le,
      UInt32.le_def, BitVec.le_def] at h
    exact h
  obtain ⟨n, hn1, hn2, rfl⟩ : ∃ n, 97 ≤ n ∧ n ≤ 122 ∧ Char.ofNat n = c :=
    ⟨c.toNat, h1.1, h1.2, Char.ofNat_toNat c⟩
  interval_cases n <;> decide

/-- A character list containing a lower-case letter is changed by
upper-casing. -/
theorem map_toUpper_ne_of_mem_lower (g : List Char) (c : Char)
    (hl : c.isLower = true) : c ∈ g → g.map Char.toUpper ≠ g := by
  induction g with
  | nil => intro hm; cases hm
  | cons a t ih =>
    intro hm heq
    rw [List.map_cons, List.cons.injEq] at heq
    rcases List.mem_cons.mp hm with hm | hm
    · subst hm
      exact toUpper_ne_of_isLower _ hl heq.1
    · exact ih hm heq.2

/-- The batch loop yields one result per account entry. -/
theorem batch_loop_length (check : String → String → String) (i : Nat)
    (l : List String) : (batch_loop check i l).length = l.length := by
  induction l generalizing i with
  | nil => rfl
  | cons a t ih => simp [batch_loop, ih]

/-- Each position of the batch loop's output is the per-entry result of the
corresponding input entry, at its absolute `enumerate` index. -/
theorem batch_loop_getElem? (check : String → String → String) (i j : Nat)
    (l : List String) :
    (batch_loop check i l)[j]? = (l[j]?).map (batch_entry_result check (i + j)) := by
  induction l generalizing i j with
  | nil => simp [batch_loop]
  | cons a t ih =>
    cases j with
    | zero => simp [batch_loop]
    | succ k =>
      have harith : i + 1 + k = i + (k + 1) := by omega
      simp only [batch_loop, List.getElem?_cons_succ]
      rw [ih (i + 1) k, harith]


/-- C1: for every email and page text, the analyzer's record has
`status == "active"` iff one of the seven premium keywords occurs as a
substring of the lower-cased page text; and when none occurs the result is a
success `CheckResult` whose record is exactly the inactive/Free placeholder
record, independent of any other page content. -/
theorem claim_c1_status_iff_premium_keyword :
    ∀ (renewal_date email html_text : String),
      (((analyze_account_status renewal_date email html_text).raw_data).map
          AccountInfo.status = some "active" ↔
        premium_indicators.any
          (fun ind => strContains (pyLower html_text) ind) = true) ∧
      (premium_indicators.any
          (fun ind => strContains (pyLower html_text) ind) = false →
        (analyze_account_status renewal_date email html_text).success = true ∧
        (analyze_account_status renewal_date email html_text).raw_data =
          some { country := "Unknown", plan := "Free", payment_method := "None",
                 status := "inactive", trial := false, renewal_date := "N/A",
                 days_left := 0 }) := by
  intro renewal_date email html_text
  unfold analyze_account_status
  cases h : premium_indicators.any (fun ind => strContains (pyLower html_text) ind) <;>
    simp [h, format_response]

/-- C1 witness: on keyword-free page text `"hello world"` the analyzer returns
the exact placeholder record with success. -/
theorem claim_c1_witness :
    (analyze_account_status "01-01-2026" "a@b.c" "hello world").success = true ∧
    (analyze_account_status "01-01-2026" "a@b.c" "hello world").raw_data =
      some { country := "Unknown", plan := "Free", payment_method := "None",
             status := "inactive", trial := false, renewal_date := "N/A",
             days_left := 0 } :=
  (claim_c1_status_iff_premium_keyword "01-01-2026" "a@b.c" "hello world").2
    (by decide)

/-- C2: the rate limiter first prunes timestamps whose age reaches the window;
if at least `max_requests` remain it rejects leaving exactly the pruned log,
otherwise it appends the current timestamp and admits.  Concretely, ten
admitted requests at seconds 0..9 (within 60 s) make the 11th (at second 10)
rejected with nothing recorded, and once the window has elapsed (second 70)
the next request is admitted again. -/
theorem claim_c2_rate_limiter_behaviour :
    (∀ {α : Type} [Sub α] [LT α] [DecidableRel ((· < ·) : α → α → Prop)]
      (now window : α) (log : List α) (max_requests : Nat),
      (max_requests ≤ (log.filter (fun t => now - t < window)).length →
        is_rate_limited now log max_requests window =
          (true, log.filter (fun t => now - t < window))) ∧
      ((log.filter (fun t => now - t < window)).length < max_requests →
        is_rate_limited now log max_requests window =
          (false, log.filter (fun t => now - t < window) ++ [now]))) ∧
    runRequests 10 (60 : ℤ) [0, 1, 2, 3, 4, 5, 6, 7, 8, 9, 10] [] =
      ([false, false, false, false, false, false, false, false, false, false,
        true],
       [0, 1, 2, 3, 4, 5, 6, 7, 8, 9]) ∧
    is_rate_limited (70 : ℤ) [0, 1, 2, 3, 4, 5, 6, 7, 8, 9] 10 60 =
      (false, [70]) := by
  refine ⟨?_, by decide, by decide⟩
  intro α _ _ _ now window log max_requests
  constructor
  · intro h
    simp [is_rate_limited, h]
  · intro h
    simp [is_rate_limited, Nat.not_le_of_lt h]

/-- C2 witness: a single recent timestamp with `max_requests = 1` is rejected
and the log is left as the pruned log. -/
theorem claim_c2_witness :
    is_rate_limited (5 : ℤ) [0] 1 60 = (true, [0]) := by
  have h := (claim_c2_rate_limiter_behaviour.1 (5 : ℤ) 60 [0] 1).1 (by decide)
  exact h.trans (by decide)

/-- C3 counterexample: an email lacking both `'@'` and `'.'` combined with an
empty password yields `400 "Missing credentials"`, not
`"Invalid email format"`, so the claim's "for every password content
whatsoever" fails. -/
theorem claim_c3_counterexample :
    charIn '@' "ab" = false ∧ charIn '.' "ab" = false ∧
    check_account false (some ⟨some "ab", some ""⟩) =
      .respond 400 false "Missing credentials"
        "❌ Invalid Request\n\nError: Email and password are required" ∧
    "Missing credentials" ≠ "Invalid email format" := by decide

/-- C3 amended: for every non-rate-limited request whose stripped email is
non-empty but lacks `'@'` or lacks `'.'`, and whose stripped password is
non-empty, the response is HTTP 400 with error `"Invalid email format"`. -/
theorem claim_c3_invalid_email_format :
    ∀ email password : String,
      pyStrip email ≠ "" → pyStrip password ≠ "" →
      (charIn '@' (pyStrip email) = false ∨ charIn '.' (pyStrip email) = false) →
      check_account false (some ⟨some email, some password⟩) =
        .respond 400 false "Invalid email format"
          ("❌ Invalid Email\n\nAccount: " ++ pyStrip email ++
            "\nError: Invalid email format") := by
  intro email password he hp hf
  simp only [check_account, validate_credentials, Option.getD_some, if_neg,
    Bool.false_eq_true, if_false]
  rw [if_neg (by tauto), if_pos hf]

/-- C3 witness: email `"ab"` with non-empty password `"x"` produces the 400
Invalid email format response. -/
theorem claim_c3_witness :
    check_account false (some ⟨some "ab", some "x"⟩) =
      .respond 400 false "Invalid email format"
        "❌ Invalid Email\n\nAccount: ab\nError: Invalid email format" := by
  have h := claim_c3_invalid_email_format "ab" "x" (by decide) (by decide)
    (Or.inl (by decide))
  exact h.trans (by decide)

/-- C4: for every success result carrying a record, the formatter picks icon
and label purely from `status == "active"` and emits the fixed layout — the
icon+label header, a blank separator, then the eight `Label: value` lines
Account, Country, Plan, Payment, Status, Trial, Renewal, Days Left, joined by
newlines (ten joined elements, nine of them non-blank). -/
theorem claim_c4_success_layout :
    ∀ (email : String) (info : AccountInfo),
      format_response true email (some info) none =
        { success := true,
          formatted_response := String.intercalate "\n"
            [(if info.status = "active" then "✅ Premium Account"
              else "❌ Free Account"),
             "",
             "Account: " ++ email,
             "Country: " ++ info.country,
             "Plan: " ++ info.plan,
             "Payment: " ++ info.payment_method,
             "Status: " ++ info.status,
             "Trial: " ++ pyBool info.trial,
             "Renewal: " ++ info.renewal_date,
             "Days Left: " ++ toString info.days_left],
          raw_data := some info,
          error := none } := by
  intro email info
  unfold format_response
  by_cases h : info.status = "active" <;> simp [h]

/-- C5 counterexample: `"mega fan airplane"` contains `"mega fan"` and has no
explicit `"plan:"` field, yet the pattern `plan[:\s]*([^\n\r]+)` matches
inside `"airplane"`, so the extracted plan is `"e"`, not
`"Mega Fan - fan_pack"`. -/
theorem claim_c5_counterexample :
    strContains (pyLower "mega fan airplane") "mega fan" = true ∧
    strContains (pyLower "mega fan airplane") "plan:" = false ∧
    extract_plan "mega fan airplane" = "e" ∧
    extract_plan "mega fan airplane" ≠ "Mega Fan - fan_pack" := by decide

/-- C5 amended: for every page text containing `"mega fan"` on which the
pattern `plan[:\s]*([^\n\r]+)` finds no match at all (not merely no explicit
`"plan:"` field), the extracted plan is exactly `"Mega Fan - fan_pack"`. -/
theorem claim_c5_mega_fan_fallback :
    ∀ page_text : String,
      reSearchCI "plan" lineTail page_text.data = none →
      strContains (pyLower page_text) "mega fan" = true →
      extract_plan page_text = "Mega Fan - fan_pack" := by
  intro page_text hsearch hmega
  unfold extract_plan
  rw [hsearch, if_pos hmega]

/-- C5 witness: `"mega fan page"` has no occurrence of `"plan"` and contains
`"mega fan"`, so the fallback fires. -/
theorem claim_c5_witness :
    extract_plan "mega fan page" = "Mega Fan - fan_pack" :=
  claim_c5_mega_fan_fallback "mega fan page" (by decide) (by decide)

/-- C6: in a processed batch, an entry lacking `':'` yields at its position
exactly the Invalid Format string with its 1-based line number and the
original entry, the results list retains one entry per account (the batch is
not aborted), and every other position is still the normal per-entry result. -/
theorem claim_c6_invalid_format_entry :
    ∀ (check : String → String → String) (accounts : List String) (i : Nat)
      (h : i < accounts.length),
      accounts.length ≤ 5 →
      charIn ':' accounts[i] = false →
      ∃ results, batch_check false (some accounts) check = .ok results ∧
        results.length = accounts.length ∧
        results[i]? = some ("❌ Invalid Format\n\nLine " ++ toString (i + 1) ++
          ": " ++ accounts[i] ++ "\nError: Use email:password format") ∧
        ∀ j, j ≠ i → results[j]? =
          (accounts[j]?).map (batch_entry_result check j) := by
  intro check accounts i h hlen hcolon
  refine ⟨batch_loop check 0 accounts, ?_, batch_loop_length check 0 accounts,
    ?_, ?_⟩
  · unfold batch_check
    rw [if_neg (by simp)]
    exact if_neg (by omega)
  · rw [batch_loop_getElem?, List.getElem?_eq_getElem h]
    simp only [Nat.zero_add, Option.map_some']
    unfold batch_entry_result
    rw [if_pos hcolon]
    rfl
  · intro j _
    rw [batch_loop_getElem?, Nat.zero_add]

/-- C6 witness: a two-entry batch whose first entry has no colon produces the
exact Invalid Format string at position 1 and still processes entry 2. -/
theorem claim_c6_witness :
    ∃ results,
      batch_check false (some ["nocolon", "a@b.c:pw"]) (fun _ _ => "OK") =
        .ok results ∧
      results[0]? = some
        "❌ Invalid Format\n\nLine 1: nocolon\nError: Use email:password format" ∧
      results[1]? = some "OK" := by
  obtain ⟨rs, h1, _, h3, h4⟩ :=
    claim_c6_invalid_format_entry (fun _ _ => "OK") ["nocolon", "a@b.c:pw"] 0
      (by decide) (by decide) (by decide)
  refine ⟨rs, h1, h3.trans (by decide), ?_⟩
  exact (h4 1 (by decide)).trans (by decide)

/-- C7: a non-rate-limited batch request with six or more account entries is
answered `400 "Too many accounts"`, and the outcome does not depend on the
checking function — no account check is attempted. -/
theorem claim_c7_too_many_accounts :
    ∀ (accounts : List String) (check check' : String → String → String),
      6 ≤ accounts.length →
      batch_check false (some accounts) check =
        .respond 400 false "Too many accounts"
          "❌ Too Many Accounts\n\nError: Maximum 5 accounts allowed per batch" ∧
      batch_check false (some accounts) check =
        batch_check false (some accounts) check' := by
  intro accounts check check' hlen
  have hresp : ∀ c : String → String → String,
      batch_check false (some accounts) c =
        .respond 400 false "Too many accounts"
          "❌ Too Many Accounts\n\nError: Maximum 5 accounts allowed per batch" := by
    intro c
    unfold batch_check
    rw [if_neg (by simp)]
    exact if_pos (by omega)
  exact ⟨hresp check, (hresp check).trans (hresp check').symm⟩

/-- C7 witness: a six-entry batch is rejected with 400 Too many accounts for
two different checking functions alike. -/
theorem claim_c7_witness :
    batch_check false (some ["a", "b", "c", "d", "e", "f"]) (fun _ _ => "X") =
      .respond 400 false "Too many accounts"
        "❌ Too Many Accounts\n\nError: Maximum 5 accounts allowed per batch" ∧
    batch_check false (some ["a", "b", "c", "d", "e", "f"]) (fun _ _ => "X") =
      batch_check false (some ["a", "b", "c", "d", "e", "f"]) (fun _ _ => "Y") :=
  claim_c7_too_many_accounts ["a", "b", "c", "d", "e", "f"]
    (fun _ _ => "X") (fun _ _ => "Y") (by decide)

/-- C8 counterexample: the check-account except-block does leak the exception
detail — its `error` field is exactly `str(e)` — contradicting the claimed
asymmetry with the batch path. -/
theorem claim_c8_counterexample :
    (check_account_on_exception "division by zero").http_status = 500 ∧
    (check_account_on_exception "division by zero").error = "division by zero" ∧
    "division by zero" ≠ "Internal server error" := by decide

/-- C8 amended: every unanticipated exception is surfaced as HTTP 500 with the
generic formatted message in both paths, and in BOTH the check-account and the
batch path the exception detail is leaked to the caller as the `error`
string — the two except-blocks behave identically. -/
theorem claim_c8_exception_responses :
    ∀ e : String,
      check_account_on_exception e =
        { http_status := 500, success := false,
          formatted_response := "❌ Server Error\n\nError: Internal server error",
          error := e } ∧
      batch_check_on_exception e = check_account_on_exception e := by
  intro e
  exact ⟨rfl, rfl⟩

/-- C9: whenever the country pattern matches, the analyzer returns the matched
group upper-cased; if the matched group contains a lower-case letter the raw
match is never returned as-is. -/
theorem claim_c9_country_uppercased :
    ∀ (page_text : String) (g : List Char),
      reSearchCI "country" countryTail page_text.data = some g →
      extract_country page_text = pyUpper (String.mk g) ∧
      ((∃ c ∈ g, c.isLower = true) → extract_country page_text ≠ String.mk g) := by
  intro page_text g hsearch
  have hup : extract_country page_text = pyUpper (String.mk g) := by
    unfold extract_country
    rw [hsearch]
  refine ⟨hup, ?_⟩
  rintro ⟨c, hm, hl⟩ heq
  rw [hup] at heq
  unfold pyUpper at heq
  have heqd : g.map Char.toUpper = g := congrArg String.data heq
  exact map_toUpper_ne_of_mem_lower g c hl hm heqd

/-- C9 witness: text `"country: us"` yields `"US"`, not the raw lowercase
match `"us"`. -/
theorem claim_c9_witness :
    extract_country "country: us" = "US" ∧ extract_country "country: us" ≠ "us" := by
  have h := claim_c9_country_uppercased "country: us" ['u', 's'] (by decide)
  exact ⟨h.1.trans (by decide), h.2 ⟨'u', by decide, by decide⟩⟩

/-- C10: `POST /api/check` strips both fields before any validation (the
outcome equals validating the stripped values); a whitespace-only email or
password yields `400 "Missing credentials"` — checked before the email-format
rule — and surrounding whitespace on an otherwise valid email does not cause a
validation failure: the handler proceeds with the stripped credentials. -/
theorem claim_c10_strip_then_validate :
    ∀ email password : String,
      check_account false (some ⟨some email, some password⟩) =
        validate_credentials (pyStrip email) (pyStrip password) ∧
      ((pyStrip email = "" ∨ pyStrip password = "") →
        check_account false (some ⟨some email, some password⟩) =
          .respond 400 false "Missing credentials"
            "❌ Invalid Request\n\nError: Email and password are required") ∧
      (pyStrip email ≠ "" → pyStrip password ≠ "" →
        charIn '@' (pyStrip email) = true → charIn '.' (pyStrip email) = true →
        check_account false (some ⟨some email, some password⟩) =
          .proceed (pyStrip email) (pyStrip password)) := by
  intro email password
  have hbase : check_account false (some ⟨some email, some password⟩) =
      validate_credentials (pyStrip email) (pyStrip password) := by
    simp [check_account]
  refine ⟨hbase, ?_, ?_⟩
  · intro hmissing
    rw [hbase]
    unfold validate_credentials
    rw [if_pos hmissing]
  · intro he hp hat hdot
    rw [hbase]
    unfold validate_credentials
    rw [if_neg (by tauto), if_neg (by simp [hat, hdot])]

/-- C10 witness: a whitespace-only email gives Missing credentials even though
it also fails the email-shape rule, and `" a@b.c "` with `" pw "` proceeds
with the stripped credentials. -/
theorem claim_c10_witness :
    check_account false (some ⟨some "   ", some "pw"⟩) =
      .respond 400 false "Missing credentials"
        "❌ Invalid Request\n\nError: Email and password are required" ∧
    check_account false (some ⟨some " a@b.c ", some " pw "⟩) =
      .proceed "a@b.c" "pw" := by
  constructor
  · exact (claim_c10_strip_then_validate "   " "pw").2.1 (Or.inl (by decide))
  · have h := (claim_c10_strip_then_validate " a@b.c " " pw ").2.2
      (by decide) (by decide) (by decide) (by decide)
    exact h.trans (by decide)
